import Mathlib

deriving instance DecidableEq for Except

/-!
Verification of `gallery.py` (Ungaminga/gallery): a shallow embedding in
Lean 4 of the data model (`Photo`, `Album`) and the operations the
specification talks about, together with theorems settling the spec claims.

Python strings are embedded as Lean `String`s; all character-level work
(lowercasing, lexicographic comparison, splitting at the last `.` or `/`)
is done through `String.toList`, since Python compares strings
code-point-wise, which is exactly the lexicographic order on `List Char`.
Machine-level details (PIL image decoding, actual file writes) are out of
scope; the file-system facts a claim needs (directory listings, existence
of the output directory) are passed in as explicit parameters, and the
file-write effects are modelled as the list of file names present in the
output directory.
-/

namespace Gallery

/-- Allow-list of photo extensions (source line 25: `PHOTO_EXTENSIONS`). -/
def PHOTO_EXTENSIONS : List String := ["jpg", "jpeg", "png"]

/-- Shared-attribute list used by `Album.__init__`s `derived_from` loop
(source line 26: `PROPS = ['title']`). -/
def PROPS : List String := ["title"]

/-- Python `s.lower()` for the ASCII file names this program handles:
lowercase each character. -/
def strLower (s : String) : String := (s.toList.map Char.toLower).asString

/-- Text after the last occurrence of `sep` in `s`; the whole of `s` when
`sep` does not occur (this is the `s[i+1:]` slice after `i = s.rfind(sep)`,
which for `i = -1` happens to be all of `s`, matching `os.path.split`
behaviour used for `name`). -/
def afterLast (sep : Char) (s : String) : String :=
  ((s.toList.reverse.takeWhile (fun c => c ≠ sep)).reverse).asString

/-- Text before the last occurrence of `sep` in `s` (the `s[:i]` slice for
`i = s.rfind(sep)`, assuming `sep` occurs). -/
def beforeLast (sep : Char) (s : String) : String :=
  (((s.toList.reverse.dropWhile (fun c => c ≠ sep)).tail).reverse).asString

/-- Module-level `extension(file)` (source lines 314-318): text after the
final dot of `file`, or `""` when `file` has no dot. -/
def extension (file : String) : String :=
  if file.toList.contains '.' then afterLast '.' file else ""

/-- The `Photo` object (source lines 44-50).  `size` and `thumb_size` are
`(0, 0)` until `small()` runs; `rating` defaults to 0 and `caption` to `""`. -/
structure Photo where
  filename : String
  caption : String
  rating : Int
  size : Nat × Nat
  thumb_size : Nat × Nat
deriving DecidableEq

/-- `Photo.__init__` with the source's default arguments. -/
def Photo.init (filename caption : String) (rating : Int) : Photo :=
  { filename := filename, caption := caption, rating := rating
    size := (0, 0), thumb_size := (0, 0) }

/-- `name` (source lines 76-78): `os.path.split(self.filename)[1]`, the
final path component. -/
def Photo.name (p : Photo) : String := afterLast '/' p.filename

/-- `path` (source lines 72-74): `os.path.split(self.filename)[0]`, the
containing directory (empty when the filename has no slash). -/
def Photo.path (p : Photo) : String :=
  if p.filename.toList.contains '/' then beforeLast '/' p.filename else ""

/-- `base` (source lines 65-70): the `name` without its final extension. -/
def Photo.base (p : Photo) : String :=
  if (Photo.name p).toList.contains '.' then beforeLast '.' (Photo.name p) else Photo.name p

/-- The body of the `ext` method (source lines 59-63): text after the final
dot of `name`, or `""`.  Note that in the source `ext` is a plain method —
see `Photo.ext_attr` below for what the attribute access `self.ext`
actually yields. -/
def Photo.ext (p : Photo) : String :=
  if (Photo.name p).toList.contains '.' then afterLast '.' (Photo.name p) else ""

/-- Result of a Python attribute access: either a string value or a bound
method object. -/
inductive PyAttrVal where
  | strVal : String → PyAttrVal
  | boundMethod : PyAttrVal
deriving DecidableEq

/-- The attribute access `self.ext` (source line 53).  Unlike `base`,
`path` and `name` (decorated `lazy_prop`) and `filename` (decorated
`prop`), `ext` is declared `def ext(self)` with no property decorator
(source line 59), so `self.ext` evaluates to the bound method object, not
to the string its body would return. -/
def Photo.ext_attr (_p : Photo) : PyAttrVal := PyAttrVal.boundMethod

/-- Calling `.lower()` on an attribute value: strings lowercase; a bound
method object has no `lower` attribute, so Python raises AttributeError. -/
def attr_lower : PyAttrVal → Except String String
  | PyAttrVal.strVal s => Except.ok (strLower s)
  | PyAttrVal.boundMethod =>
      Except.error ("AttributeError: function object has no attribute lower")

/-- `is_photo` (source lines 52-53): `return self.ext.lower() in PHOTO_EXTENSIONS`. -/
def Photo.is_photo (p : Photo) : Except String Bool :=
  match attr_lower (Photo.ext_attr p) with
  | Except.ok e => Except.ok (PHOTO_EXTENSIONS.contains e)
  | Except.error m => Except.error m

/-- A Python value appearing as the right operand of `Photo.__lt__`. -/
inductive PyVal where
  | photo : Photo → PyVal
  | str : String → PyVal
  | int : Int → PyVal
  | noneVal : PyVal
deriving DecidableEq

/-- A value returned by `Photo.__lt__`: the source returns the int `-1`
for non-Photo operands and a bool for Photo operands. -/
inductive PyCmpResult where
  | pyInt : Int → PyCmpResult
  | pyBool : Bool → PyCmpResult
deriving DecidableEq

/-- `Photo.__lt__` (source lines 80-90): `-1` when `other` is not a Photo,
otherwise `self.filename < other.filename` (code-point lexicographic). -/
def Photo.lt (p : Photo) : PyVal → PyCmpResult
  | PyVal.photo q => PyCmpResult.pyBool (decide (p.filename.toList < q.filename.toList))
  | PyVal.str _ => PyCmpResult.pyInt (-1)
  | PyVal.int _ => PyCmpResult.pyInt (-1)
  | PyVal.noneVal => PyCmpResult.pyInt (-1)

/-- Python truthiness of a `__lt__` result: a nonzero int is truthy. -/
def pyTruthy : PyCmpResult → Bool
  | PyCmpResult.pyInt n => decide (n ≠ 0)
  | PyCmpResult.pyBool b => b

/-- The `thumb_size` recorded by `Photo.small` (source lines 104-110) for a
source image of width `w`, height `h` and target longest edge `size`.
Python 3 `/` is true division and `int(...)` truncates toward zero, which
on these nonnegative quantities is floor division. -/
def small_thumb_size (w h size : Nat) : Nat × Nat :=
  if w > h then (size, size * h / w) else (size * w / h, size)

/-- Modelled from the spec: `round(target * shorter / longer)` — the
nearest integer to `a / b`, halves rounding up. -/
def round_div (a b : Nat) : Nat := (2 * a + b) / (2 * b)

/-- Python exceptions raised by the source. -/
inductive PyExc where
  | indexError : String → PyExc
  | keyError : String → PyExc
  | attributeError : String → PyExc
  | typeError : String → PyExc
  | ioError : String → PyExc
deriving DecidableEq

/-- A single-quote character, for reproducing the quoted keys in the
source's error message format strings. -/
def sq : String := String.singleton (Char.ofNat 39)

/-- The ordering Python's stable `list.sort()` establishes through
`Photo.__lt__`: nondecreasing by `filename` in code-point lexicographic
order. -/
def photoLe (a b : Photo) : Prop := a.filename.toList ≤ b.filename.toList

instance : DecidableRel photoLe :=
  fun a b => (inferInstance : Decidable (a.filename.toList ≤ b.filename.toList))

instance : IsTotal Photo photoLe := ⟨fun a b => le_total a.filename.toList b.filename.toList⟩

instance : IsTrans Photo photoLe := ⟨fun _ _ _ h1 h2 => le_trans h1 h2⟩

/-- `self.__photos.sort()`: a stable sort under `Photo.__lt__`, i.e. by
filename. -/
def pySort (l : List Photo) : List Photo := List.insertionSort photoLe l

/-- The `title` property setter (source lines 174-176):
`title.replace("\n", " ")`. -/
def set_title (t : String) : String :=
  (t.toList.map (fun c => if c = '\n' then ' ' else c)).asString

/-- The `Album` object (source lines 150-166).  The derived
`__photo_dict` mapping is represented functionally by `photo_dict` below,
which always reflects the current photo list exactly as
`__create_photo_dict` builds it. -/
structure Album where
  photos : List Photo
  title : String
  thumb_size : Nat
  rel_dir : String
deriving DecidableEq

/-- `__create_photo_dict` (source lines 169-172) builds a dict keyed by
`F.name.lower()`, later entries overwriting earlier ones; looking up `key`
therefore returns the last photo in the list whose lowercased name is
`key`. -/
def photo_dict (photos : List Photo) (key : String) : Option Photo :=
  (photos.filter (fun F => strLower (Photo.name F) == key)).getLast?

/-- `Album.__init__` (source lines 151-166): copies and sorts the photo
list, applies the `title` setter, sets `thumb_size = 200` and `rel_dir`.
The `derived_from` loop copies every attribute in `PROPS` other than
`'title'`; since `PROPS = ['title']`, it copies nothing, so the parameter
has no effect. -/
def Album.init (photos : List Photo) (title : String) (rel_dir : String)
    (_derived_from : Option Album) : Album :=
  { photos := pySort photos
    title := set_title title
    thumb_size := 200
    rel_dir := rel_dir }

/-- `Album.sort` (source lines 181-186): re-sort by filename and rebuild
the photo dict (the dict is derived here, so only the list changes). -/
def Album.sort (A : Album) : Album := { A with photos := pySort A.photos }

/-- CPython list indexing for `self.__photos[x]` with an int `x`: a
negative index counts from the end; out of range on either side gives
`none` (IndexError). -/
def pyListGet (l : List Photo) (i : Int) : Option Photo :=
  if 0 ≤ i then l.get? i.toNat
  else if 0 ≤ i + l.length then l.get? (i + l.length).toNat
  else none

/-- `Album.__getitem__` on an int key (source lines 197-202): the list
access, with IndexError re-raised carrying the valid range. -/
def Album.getitem_int (A : Album) (i : Int) : Except PyExc Photo :=
  match pyListGet A.photos i with
  | some P => Except.ok P
  | none => Except.error (PyExc.indexError
      ("The index must satisfy 0 <= i < " ++ toString A.photos.length))

/-- `Album.__getitem__` on a non-int key (source lines 203-207): look up
`str(x).lower()` in the photo dict, KeyError on a miss. -/
def Album.getitem_name (A : Album) (x : String) : Except PyExc Photo :=
  match photo_dict A.photos (strLower x) with
  | some P => Except.ok P
  | none => Except.error (PyExc.keyError ("No photo with name " ++ sq ++ x ++ sq))

/-- `Album.photo(name)` (source lines 217-221): looks `name` up in the
photo dict directly — unlike `__getitem__`, the key is NOT lowercased. -/
def Album.photo (A : Album) (name : String) : Except PyExc Photo :=
  match photo_dict A.photos name with
  | some P => Except.ok P
  | none => Except.error (PyExc.keyError
      ("No photo named " ++ sq ++ name ++ sq ++ " in the album."))

/-- The attribute access `other.rel_path` in `Album.__add__` (source line
304).  No code in the source ever sets a `rel_path` attribute on an Album
(the stored field is `rel_dir`), so the access raises AttributeError. -/
def Album.rel_path_attr (_A : Album) : Except PyExc String :=
  Except.error (PyExc.attributeError
    (sq ++ "Album" ++ sq ++ " object has no attribute " ++ sq ++ "rel_path" ++ sq))

/-- `Album.__add__` (source lines 299-304): after the isinstance check,
concatenate the photo lists, compose the titles, then build the result
with `other.rel_path` — which raises before the new Album is constructed. -/
def Album.add (A other : Album) : Except PyExc Album :=
  let photos := A.photos ++ other.photos
  let title := A.title ++ " + " ++ other.title
  match Album.rel_path_attr other with
  | Except.ok rp => Except.ok (Album.init photos title rp (some A))
  | Except.error e => Except.error e

/-- Mode in which Python's `open()` was asked to open a file. -/
inductive OpenMode where
  | text : OpenMode
  | binary : OpenMode
deriving DecidableEq

/-- `open(filename, "w")` in `Album.save` (source line 307) opens the file
in text mode. -/
def save_open_mode : OpenMode := OpenMode.text

/-- `pickle.dump` writes a bytes payload through `file.write`; a Python 3
file opened in text mode accepts only `str`, so the write raises
TypeError.  Only a binary-mode file accepts the payload. -/
def pickle_dump_to : OpenMode → Except PyExc Unit
  | OpenMode.text =>
      Except.error (PyExc.typeError ("write() argument must be str, not bytes"))
  | OpenMode.binary => Except.ok ()

/-- `Album.save` (source lines 306-307): `pickle.dump(self, open(filename, "w"))`. -/
def Album.save (_A : Album) (_filename : String) : Except PyExc Unit :=
  pickle_dump_to save_open_mode

/-- `album(dir, no_output)` (source lines 326-390).  `dir_is_dir` is the
`os.path.isdir` answer for the joined path `dir_joined`
(`os.path.join(os.getcwd(), album_path)`), `rel_dir` is the original
`dir` argument, and `files` is the `os.listdir` result.  The function
reads no file content: despite its docstring, no `.txt` metadata file is
ever opened, so every Photo keeps `caption = F` (the entry name) and
`rating = 0` as set at construction. -/
def album (dir_is_dir : Bool) (dir_joined : String) (rel_dir : String)
    (files : List String) (_no_output : Bool) : Except PyExc Album :=
  if ¬ dir_is_dir then
    Except.error (PyExc.ioError ("No such directory: " ++ sq ++ dir_joined ++ sq))
  else
    let title := if dir_joined.toList.contains '/' then afterLast '/' dir_joined
                 else dir_joined
    let photos := (files.filter
        (fun F => PHOTO_EXTENSIONS.contains (strLower (extension F)))).map
        (fun F => Photo.init (dir_joined ++ "/" ++ F) F 0)
    Except.ok (Album.sort (Album.init photos title rel_dir none))

/-- Overwriting file creation: writing file `f` into a directory that
already holds the files `fs` adds `f` unless it is already present. -/
def fsWrite (fs : List String) (f : String) : List String :=
  if f ∈ fs then fs else fs ++ [f]

/-- Writing a sequence of files in order. -/
def writeSeq (fs : List String) (names : List String) : List String :=
  names.foldl fsWrite fs

/-- The files present in the output directory after the body of
`Album.html` runs (source lines 232-296): starting from `fs0`, the loop
writes `<base>.html` for each photo in order (source line 147), then
`index.html` is written (source line 296). -/
def html_writes (A : Album) (fs0 : List String) : List String :=
  fsWrite (writeSeq fs0 (A.photos.map (fun P => Photo.base P ++ ".html"))) ("index.html")

/-- `Album.html(name, delete_old_dir)` (source lines 223-296), as a
function of the prior state of the output directory `./name`:
`dir_exists` says whether it exists and `existing` lists the files in it.
If it exists and `delete_old_dir` is false, IOError is raised before any
write.  If it exists and `delete_old_dir` is true, NOTHING is deleted:
the directory is reused as-is and written into.  Only a missing directory
is created (empty).  The result is the final file list of the directory. -/
def Album.html_run (A : Album) (nm : String) (dir_exists : Bool)
    (existing : List String) (delete_old_dir : Bool) : Except PyExc (List String) :=
  if dir_exists then
    if ¬ delete_old_dir then
      Except.error (PyExc.ioError
        ("The directory " ++ sq ++ "./" ++ nm ++ sq ++
          " already exists.  Please delete it first."))
    else Except.ok (html_writes A existing)
  else Except.ok (html_writes A [])

/-- `i_prev` for loop index `i` in an album of `n` photos (source lines
256-258): `i - 1`, wrapping to `n - 1` when that is negative. -/
def i_prev (i n : Nat) : Nat := if (i : Int) - 1 < 0 then n - 1 else i - 1

/-- `i_next` for loop index `i` in an album of `n` photos (source lines
259-261): `i + 1`, wrapping to `0` when that reaches `n`. -/
def i_next (i n : Nat) : Nat := if n ≤ i + 1 then 0 else i + 1

/-- A concrete photo with a mixed-case name, for exercising the
case-sensitivity of the name lookups. -/
def photoAcase : Photo := Photo.init ("A.jpg") ("A.jpg") 0

/-- A one-photo album around `photoAcase`. -/
def albumAcase : Album := Album.init [photoAcase] ("t") ("") none

/-- A concrete one-photo album, used to exercise `Album.html`. -/
def albumOne : Album := Album.init [Photo.init ("d/a.jpg") ("a.jpg") 0] ("t") ("d") none

/-- A concrete two-photo album, used to exercise the circular navigation. -/
def albumTwo : Album :=
  Album.init [Photo.init ("d/a.jpg") ("a.jpg") 0, Photo.init ("d/b.jpg") ("b.jpg") 0] ("t")
    ("d") none

/-- Helper: in a photo list whose lowercased names are pairwise distinct,
the dict lookup of a member photo's lowercased name returns exactly that
photo. -/
theorem photo_dict_last (l : List Photo) (P : Photo)
    (hnd : (l.map (fun Q => strLower (Photo.name Q))).Nodup) (hP : P ∈ l) :
    photo_dict l (strLower (Photo.name P)) = some P := by
  unfold photo_dict
  have hfil : l.filter (fun F => strLower (Photo.name F) == strLower (Photo.name P)) = [P] := by
    induction l with
    | nil => cases hP
    | cons x xs ih =>
      rw [List.map_cons, List.nodup_cons] at hnd
      rcases List.mem_cons.mp hP with hPx | hmem
      · subst hPx
        rw [List.filter_cons_of_pos (by simp)]
        have hrest : xs.filter
            (fun F => strLower (Photo.name F) == strLower (Photo.name P)) = [] := by
          apply List.filter_eq_nil_iff.mpr
          intro a ha hcontra
          rw [beq_iff_eq] at hcontra
          exact hnd.1 (hcontra ▸ List.mem_map_of_mem (fun Q => strLower (Photo.name Q)) ha)
        rw [hrest]
      · have hne : (strLower (Photo.name x) == strLower (Photo.name P)) = false := by
          apply beq_eq_false_iff_ne.mpr
          intro hEq
          exact hnd.1 (hEq ▸ List.mem_map_of_mem (fun Q => strLower (Photo.name Q)) hmem)
        rw [List.filter_cons_of_neg (by simp [hne])]
        exact ih hnd.2 hmem
  rw [hfil]
  rfl

/-- Helper: a file already present stays present after one write. -/
theorem mem_fsWrite (fs : List String) (g f : String) (h : f ∈ fs) : f ∈ fsWrite fs g := by
  unfold fsWrite
  by_cases hc : g ∈ fs
  · rw [if_pos hc]; exact h
  · rw [if_neg hc]; exact List.mem_append_left _ h

/-- Helper: a file already present stays present after any sequence of
writes. -/
theorem mem_writeSeq (names : List String) (fs : List String) (f : String) (h : f ∈ fs) :
    f ∈ writeSeq fs names := by
  induction names generalizing fs with
  | nil => exact h
  | cons n ns ih => exact ih (fsWrite fs n) (mem_fsWrite fs n f h)

/-- Helper: writing a duplicate-free batch of files none of which is
already present appends exactly that batch. -/
theorem writeSeq_fresh (names : List String) : ∀ fs : List String,
    (∀ n ∈ names, n ∉ fs) → names.Nodup → writeSeq fs names = fs ++ names := by
  induction names with
  | nil =>
    intro fs _ _
    simp [writeSeq]
  | cons n ns ih =>
    intro fs hdis hnd
    rw [List.nodup_cons] at hnd
    have hnotin : n ∉ fs := hdis n (List.mem_cons_self n ns)
    have hw : fsWrite fs n = fs ++ [n] := by
      unfold fsWrite
      rw [if_neg hnotin]
    have hdis2 : ∀ m ∈ ns, m ∉ fs ++ [n] := by
      intro m hm hmem
      rcases List.mem_append.mp hmem with hmf | hmn
      · exact hdis m (List.mem_cons_of_mem n hm) hmf
      · exact hnd.1 ((List.mem_singleton.mp hmn) ▸ hm)
    show writeSeq (fsWrite fs n) ns = fs ++ n :: ns
    rw [hw, ih (fs ++ [n]) hdis2 hnd.2]
    simp

/-- Helper: list indexing with an index outside the Python-valid range
`-len <= i < len` yields no element. -/
theorem pyListGet_eq_none (l : List Photo) (i : Int)
    (h : i < -(l.length : Int) ∨ (l.length : Int) ≤ i) : pyListGet l i = none := by
  unfold pyListGet
  rcases h with h | h
  · have h0 : ¬ (0 ≤ i) := by omega
    have h1 : ¬ (0 ≤ i + (l.length : Int)) := by omega
    rw [if_neg h0, if_neg h1]
  · have h0 : 0 ≤ i := by omega
    rw [if_pos h0]
    exact List.get?_eq_none.mpr (by omega)

/-- C1: the directory scan applies no metadata.  Scanning a directory
whose listing holds `notes.txt` (the companion metadata file) next to
`photo.jpg` and `photo7.jpg` returns both photos with `rating` 0 and
`caption` equal to their own file name: `album` filters the `.txt` entry
out and never opens any file, so the entries the claim says are applied
(rating 2, bracketed caption) are nowhere to be found in the result. -/
theorem C1_album_ignores_metadata :
    (album true ("/cwd/pics") ("pics") ["notes.txt", "photo.jpg", "photo7.jpg"] false).map
        (fun A => A.photos.map (fun P => (Photo.name P, P.caption, P.rating)))
      = Except.ok [(("photo.jpg"), ("photo.jpg"), 0), (("photo7.jpg"), ("photo7.jpg"), 0)] := by
  decide

/-- C5 counterexample: the album contains the photo named `A.jpg`, yet
`photo("A.jpg")` — an upper/lower-case variant of that very name — raises
KeyError, because `Album.photo` does not lowercase its key while the dict
is keyed by lowercased names. -/
theorem C5_photo_case_cex :
    (Album.sort albumAcase).photo ("A.jpg") =
      Except.error (PyExc.keyError
        ("No photo named " ++ sq ++ "A.jpg" ++ sq ++ " in the album.")) ∧
    photoAcase ∈ (Album.sort albumAcase).photos ∧
    Photo.name photoAcase = "A.jpg" := by decide

/-- C5 (amended): after `A.sort()` the photo sequence is nondecreasing by
filename, and — when the photos' lowercased names are pairwise distinct —
`photo(n)` returns the matching Photo exactly for `n` equal to the
lowercased name; any other case variant of the name raises KeyError (the
lookup is case-sensitive; only `__getitem__` lowercases its key). -/
theorem C5_sorted_and_lookup (A : Album)
    (hnd : (A.photos.map (fun Q => strLower (Photo.name Q))).Nodup) :
    List.Sorted photoLe (Album.sort A).photos ∧
    ∀ P ∈ (Album.sort A).photos,
      (Album.sort A).photo (strLower (Photo.name P)) = Except.ok P := by
  have hperm : (Album.sort A).photos.Perm A.photos :=
    List.perm_insertionSort photoLe A.photos
  have hnd2 : ((Album.sort A).photos.map (fun Q => strLower (Photo.name Q))).Nodup :=
    ((hperm.map (fun Q => strLower (Photo.name Q))).nodup_iff).mpr hnd
  constructor
  · exact List.sorted_insertionSort photoLe A.photos
  · intro P hP
    unfold Album.photo
    rw [photo_dict_last (Album.sort A).photos P hnd2 hP]

/-- C5 witness: the amended statement instantiated on the concrete
one-photo album `albumAcase`. -/
theorem C5_sorted_and_lookup_witness :
    (albumAcase.photos.map (fun Q => strLower (Photo.name Q))).Nodup ∧
    (List.Sorted photoLe (Album.sort albumAcase).photos ∧
      ∀ P ∈ (Album.sort albumAcase).photos,
        (Album.sort albumAcase).photo (strLower (Photo.name P)) = Except.ok P) :=
  ⟨by decide, C5_sorted_and_lookup albumAcase (by decide)⟩

/-- C7 counterexample: rendering `albumOne` (one photo, base `a`) into an
existing output directory that already holds `old.html`, with
`delete_old_dir = True`, does not delete the directory: the run succeeds
but `old.html` survives, and the resulting directory holds three files —
not the claimed "exactly one HTML file per photo plus one index file"
(which would be two). -/
theorem C7_html_no_delete_cex :
    Album.html_run albumOne ("html") true ["old.html"] true =
      Except.ok ["old.html", "a.html", "index.html"] ∧
    ("old.html" ∈ ["old.html", "a.html", "index.html"]) ∧
    ["old.html", "a.html", "index.html"].length ≠ albumOne.photos.length + 1 := by decide

/-- C7 (amended): with `delete_old_dir` false, `Album.html` raises IOError
when the output directory exists, before writing anything; with
`delete_old_dir` true and an existing directory the code deletes nothing —
it writes into the directory as-is, so every pre-existing file survives;
only when the directory does not exist is it created, and then (for
distinct photo bases) the output is exactly one HTML file per photo plus
`index.html`. -/
theorem C7_html_dir_handling (A : Album) (nm : String) (existing : List String)
    (hnd : (A.photos.map (fun P => Photo.base P ++ ".html")).Nodup)
    (hidx : "index.html" ∉ A.photos.map (fun P => Photo.base P ++ ".html")) :
    Album.html_run A nm true existing false =
      Except.error (PyExc.ioError ("The directory " ++ sq ++ "./" ++ nm ++ sq ++
        " already exists.  Please delete it first.")) ∧
    Album.html_run A nm true existing true = Except.ok (html_writes A existing) ∧
    (∀ f ∈ existing, f ∈ html_writes A existing) ∧
    (∀ d : Bool, Album.html_run A nm false existing d =
      Except.ok (A.photos.map (fun P => Photo.base P ++ ".html") ++ ["index.html"])) := by
  refine ⟨rfl, rfl, ?_, ?_⟩
  · intro f hf
    unfold html_writes
    exact mem_fsWrite _ _ f (mem_writeSeq _ existing f hf)
  · intro d
    have hfresh : html_writes A [] =
        A.photos.map (fun P => Photo.base P ++ ".html") ++ ["index.html"] := by
      unfold html_writes
      rw [writeSeq_fresh _ [] (fun n _ hn => (List.not_mem_nil n) hn) hnd, List.nil_append]
      unfold fsWrite
      rw [if_neg hidx]
    show Except.ok (html_writes A []) = _
    rw [hfresh]

/-- C7 witness: the amended statement on the concrete album `albumOne`
with one stale file in the pre-existing directory. -/
theorem C7_html_dir_handling_witness :
    (albumOne.photos.map (fun P => Photo.base P ++ ".html")).Nodup ∧
    "index.html" ∉ albumOne.photos.map (fun P => Photo.base P ++ ".html") ∧
    (Album.html_run albumOne ("html") true ["old.html"] false =
      Except.error (PyExc.ioError ("The directory " ++ sq ++ "./" ++ "html" ++ sq ++
        " already exists.  Please delete it first.")) ∧
    Album.html_run albumOne ("html") true ["old.html"] true =
      Except.ok (html_writes albumOne ["old.html"]) ∧
    (∀ f ∈ ["old.html"], f ∈ html_writes albumOne ["old.html"]) ∧
    (∀ d : Bool, Album.html_run albumOne ("html") false ["old.html"] d =
      Except.ok (albumOne.photos.map (fun P => Photo.base P ++ ".html") ++ ["index.html"]))) :=
  ⟨by decide, by decide, C7_html_dir_handling albumOne ("html") ["old.html"]
    (by decide) (by decide)⟩

/-- C8 counterexample: on a one-photo album, `A[5]` raises IndexError
whose message is `The index must satisfy 0 <= i < 1` — it contains the
album length, and no character of the offending index `5` appears in it;
moreover `A[-1]`, also outside the claimed valid range `0 <= i < 1`,
does not raise at all but returns the last photo. -/
theorem C8_index_msg_cex :
    Album.getitem_int albumAcase 5 =
      Except.error (PyExc.indexError ("The index must satisfy 0 <= i < 1")) ∧
    ¬ '5' ∈ "The index must satisfy 0 <= i < 1".toList ∧
    toString (5 : Nat) = "5" ∧
    Album.getitem_int albumAcase (-1) = Except.ok photoAcase := by decide

/-- C8 (amended): an integer index outside Python's valid range
`-len <= i < len` raises IndexError whose message states the valid range
(it contains the album length, not the offending index); an unknown name
raises KeyError containing the offending name, from both `__getitem__`
and `photo()`; all three lookups are read-only, so the album's photo
sequence and name mapping are unchanged. -/
theorem C8_lookup_errors (A : Album) (i : Int) (x : String)
    (hi : i < -(A.photos.length : Int) ∨ (A.photos.length : Int) ≤ i)
    (hlow : photo_dict A.photos (strLower x) = none)
    (hraw : photo_dict A.photos x = none) :
    Album.getitem_int A i = Except.error (PyExc.indexError
      ("The index must satisfy 0 <= i < " ++ toString A.photos.length)) ∧
    Album.getitem_name A x = Except.error (PyExc.keyError
      ("No photo with name " ++ sq ++ x ++ sq)) ∧
    Album.photo A x = Except.error (PyExc.keyError
      ("No photo named " ++ sq ++ x ++ sq ++ " in the album.")) := by
  refine ⟨?_, ?_, ?_⟩
  · unfold Album.getitem_int
    rw [pyListGet_eq_none A.photos i hi]
  · unfold Album.getitem_name
    rw [hlow]
  · unfold Album.photo
    rw [hraw]

/-- C8 witness: the amended statement instantiated at index 5 and name
`zzz.jpg` on the concrete one-photo album. -/
theorem C8_lookup_errors_witness :
    ((5 : Int) < -(albumAcase.photos.length : Int) ∨
      (albumAcase.photos.length : Int) ≤ 5) ∧
    photo_dict albumAcase.photos (strLower ("zzz.jpg")) = none ∧
    photo_dict albumAcase.photos ("zzz.jpg") = none ∧
    (Album.getitem_int albumAcase 5 = Except.error (PyExc.indexError
      ("The index must satisfy 0 <= i < " ++ toString albumAcase.photos.length)) ∧
    Album.getitem_name albumAcase ("zzz.jpg") = Except.error (PyExc.keyError
      ("No photo with name " ++ sq ++ "zzz.jpg" ++ sq)) ∧
    Album.photo albumAcase ("zzz.jpg") = Except.error (PyExc.keyError
      ("No photo named " ++ sq ++ "zzz.jpg" ++ sq ++ " in the album."))) :=
  ⟨by decide, by decide, by decide,
    C8_lookup_errors albumAcase 5 ("zzz.jpg") (by decide) (by decide) (by decide)⟩

/-- C2: `is_photo()` never returns a boolean at all: because `ext` lacks a
property decorator, `self.ext.lower()` raises AttributeError on every
Photo, so the claimed allow-list behaviour is unreachable. -/
theorem C2_is_photo_raises (p : Photo) :
    Photo.is_photo p =
      Except.error ("AttributeError: function object has no attribute lower") := rfl

/-- C3: `A + B` never returns an Album: after concatenating the photo
lists and composing the titles, the constructor call evaluates
`other.rel_path`, an attribute no Album has (the field is `rel_dir`), so
AttributeError is raised for every pair of operands. -/
theorem C3_add_raises (A B : Album) :
    Album.add A B = Except.error (PyExc.attributeError
      (sq ++ "Album" ++ sq ++ " object has no attribute " ++ sq ++ "rel_path" ++ sq)) := rfl

/-- C4 counterexample: for an (800, 403) source and target 200 the code
records a shorter edge of 100 (truncation), while the claimed
`round(200 * 403 / 800) = round(100.75)` is 101. -/
theorem C4_round_cex :
    (small_thumb_size 800 403 200).2 = 100 ∧
    round_div (200 * 403) 800 = 101 ∧ (100 : Nat) ≠ 101 := by decide

/-- C4 (amended): `Photo.small` pins the longer edge to the target `t` and
records `floor(t * shorter / longer)` — not `round` — for the shorter
edge; the spec's two concrete examples are exact divisions, so they hold
as stated. -/
theorem C4_thumb_floor (w h t : Nat) (hw : 0 < w) (hh : 0 < h) :
    max (small_thumb_size w h t).1 (small_thumb_size w h t).2 = t ∧
    min (small_thumb_size w h t).1 (small_thumb_size w h t).2 = t * min w h / max w h ∧
    small_thumb_size 800 400 200 = (200, 100) ∧
    small_thumb_size 400 800 200 = (100, 200) := by
  have key : ∀ a b : Nat, 0 < b → a ≤ b → t * a / b ≤ t := by
    intro a b hb hab
    calc t * a / b ≤ t * b / b := Nat.div_le_div_right (Nat.mul_le_mul le_rfl hab)
    _ = t := Nat.mul_div_cancel t hb
  refine ⟨?_, ?_, by decide, by decide⟩
  · unfold small_thumb_size
    by_cases hgt : w > h
    · rw [if_pos hgt]
      exact max_eq_left (key h w hw (le_of_lt hgt))
    · rw [if_neg hgt]
      exact max_eq_right (key w h hh (le_of_not_lt hgt))
  · unfold small_thumb_size
    by_cases hgt : w > h
    · rw [if_pos hgt]
      show min t (t * h / w) = t * min w h / max w h
      rw [min_eq_right (le_of_lt hgt), max_eq_left (le_of_lt hgt)]
      exact min_eq_right (key h w hw (le_of_lt hgt))
    · rw [if_neg hgt]
      show min (t * w / h) t = t * min w h / max w h
      rw [min_eq_left (le_of_not_lt hgt), max_eq_right (le_of_not_lt hgt)]
      exact min_eq_left (key w h hh (le_of_not_lt hgt))

/-- C4 witness: the amended statement instantiated at an (800, 400)
source with target 200. -/
theorem C4_thumb_floor_witness :
    (0 : Nat) < 800 ∧ (0 : Nat) < 400 ∧
    (max (small_thumb_size 800 400 200).1 (small_thumb_size 800 400 200).2 = 200 ∧
      min (small_thumb_size 800 400 200).1 (small_thumb_size 800 400 200).2 =
        200 * min 800 400 / max 800 400 ∧
      small_thumb_size 800 400 200 = (200, 100) ∧
      small_thumb_size 400 800 200 = (100, 200)) :=
  ⟨by decide, by decide, C4_thumb_floor 800 400 200 (by decide) (by decide)⟩

/-- C6: `Album.save` can never produce a file to load back: it hands
`pickle.dump` a file opened in text mode, and in Python 3 the dump's
bytes payload is rejected with TypeError, so the save/load round trip
fails at the first step for every Album and filename. -/
theorem C6_save_raises (A : Album) (filename : String) :
    Album.save A filename =
      Except.error (PyExc.typeError ("write() argument must be str, not bytes")) := rfl

/-- C9: in `Album.html`, for an album of at least two photos the loop's
navigation indices wrap circularly: index 0 gets predecessor `N - 1` and
successor 1, and index `N - 1` gets successor 0. -/
theorem C9_nav_circular (A : Album) (h2 : 2 ≤ A.photos.length) :
    i_prev 0 A.photos.length = A.photos.length - 1 ∧
    i_next 0 A.photos.length = 1 ∧
    i_next (A.photos.length - 1) A.photos.length = 0 ∧
    A.photos.get? (i_prev 0 A.photos.length) = A.photos.get? (A.photos.length - 1) ∧
    A.photos.get? (i_next (A.photos.length - 1) A.photos.length) = A.photos.get? 0 := by
  have e1 : i_prev 0 A.photos.length = A.photos.length - 1 := by
    unfold i_prev
    have c : ((0 : Nat) : Int) - 1 < 0 := by norm_num
    rw [if_pos c]
  have e2 : i_next 0 A.photos.length = 1 := by
    unfold i_next
    have c : ¬ A.photos.length ≤ 0 + 1 := by omega
    rw [if_neg c]
  have e3 : i_next (A.photos.length - 1) A.photos.length = 0 := by
    unfold i_next
    have c : A.photos.length ≤ A.photos.length - 1 + 1 := by omega
    rw [if_pos c]
  exact ⟨e1, e2, e3, by rw [e1], by rw [e3]⟩

/-- C9 witness: the circular navigation facts on a concrete two-photo
album. -/
theorem C9_nav_circular_witness :
    2 ≤ albumTwo.photos.length ∧
    (i_prev 0 albumTwo.photos.length = albumTwo.photos.length - 1 ∧
      i_next 0 albumTwo.photos.length = 1 ∧
      i_next (albumTwo.photos.length - 1) albumTwo.photos.length = 0 ∧
      albumTwo.photos.get? (i_prev 0 albumTwo.photos.length) =
        albumTwo.photos.get? (albumTwo.photos.length - 1) ∧
      albumTwo.photos.get? (i_next (albumTwo.photos.length - 1) albumTwo.photos.length) =
        albumTwo.photos.get? 0) :=
  ⟨by decide, C9_nav_circular albumTwo (by decide)⟩

/-- C10: `Photo.__lt__` returns the int `-1` — truthy in boolean context —
for every non-Photo right operand (strings, ints, None), and the boolean
lexicographic filename comparison exactly when the operand is a Photo. -/
theorem C10_lt_non_photo (p q : Photo) (s : String) (n : Int) :
    Photo.lt p (PyVal.str s) = PyCmpResult.pyInt (-1) ∧
    pyTruthy (Photo.lt p (PyVal.str s)) = true ∧
    Photo.lt p (PyVal.int n) = PyCmpResult.pyInt (-1) ∧
    pyTruthy (Photo.lt p (PyVal.int n)) = true ∧
    Photo.lt p PyVal.noneVal = PyCmpResult.pyInt (-1) ∧
    pyTruthy (Photo.lt p PyVal.noneVal) = true ∧
    Photo.lt p (PyVal.photo q) =
      PyCmpResult.pyBool (decide (p.filename.toList < q.filename.toList)) :=
  ⟨rfl, rfl, rfl, rfl, rfl, rfl, rfl⟩

end Gallery
